import Mathlib

/-!
# Verification of `app.py` (Rayan: AI Immigration Assistant)

Shallow embedding of the Streamlit chat application `src/app.py`.
Pure Python functions become Lean functions; the Streamlit/Gemini side
effects (environment reads, remote `send_message` calls, UI rendering)
are modelled by explicit oracles, event lists and `Except` values:
a Python `try/except` block that catches an exception corresponds to a
total Lean function emitting an error event, while an uncaught Python
exception corresponds to an `Except.error` result that propagates.
-/

/-! ## Python string containment (`needle in haystack`) -/

/-- `segAt needle hay` holds when `hay` starts with `needle`
(character-by-character prefix test on char lists). -/
def segAt : List Char → List Char → Bool
  | [], _ => true
  | _ :: _, [] => false
  | a :: as, b :: bs => a == b && segAt as bs

/-- `hasSeg needle hay` holds when `needle` occurs as a contiguous
segment of `hay`; this is Python's `needle in haystack` on strings. -/
def hasSeg (needle : List Char) : List Char → Bool
  | [] => segAt needle []
  | c :: cs => segAt needle (c :: cs) || hasSeg needle cs

/-- Python's substring operator `needle in hay` lifted to `String`. -/
def strContains (hay needle : String) : Bool :=
  hasSeg needle.data hay.data

/-! ## The tool `calculate_crs_score` (app.py lines 45-77) -/

/-- A Python runtime value appearing in the returned dict: the dict maps
string keys to either an `int` or a `str`. -/
inductive PyVal where
  | vInt (i : Int)
  | vStr (s : String)
  deriving DecidableEq, Repr

/-- Education points: `if "Master" in education or "PhD" in education: 135
elif "Bachelor" in education: 120 else: 30` (app.py lines 59-64). -/
def educationPoints (education : String) : Int :=
  if strContains education "Master" || strContains education "PhD" then 135
  else if strContains education "Bachelor" then 120
  else 30

/-- The running `score` accumulated by `calculate_crs_score`
(app.py lines 56-75): education, then experience, then language points. -/
def crsScore (education : String) (experience_years language_score_clb : Int) : Int :=
  let score : Int := 0
  let score := score + educationPoints education
  let score := score + min experience_years 5 * 15
  let score := score +
    (if language_score_clb ≥ 9 then language_score_clb * 10 else language_score_clb * 5)
  score

/-- `calculate_crs_score` (app.py lines 45-77): returns the Python dict
`{"calculated_score": score, "note": "..."}` as an association list. -/
def calculate_crs_score (education : String)
    (experience_years language_score_clb : Int) : List (String × PyVal) :=
  [("calculated_score", PyVal.vInt (crsScore education experience_years language_score_clb)),
   ("note", PyVal.vStr "CRS score is a simplified estimate for project demonstration only.")]

/-! ## Client initialization (app.py lines 11-29) and session setup -/

/-- The Pydantic `ImmigrationData` schema (app.py lines 34-40). -/
structure ImmigrationData where
  full_name : String
  date_of_birth : String
  job_title : String
  noc_code : String
  wes_equivalency : String
  deriving DecidableEq

/-- UI effects produced by `st.error`, `st.warning`, `st.success`,
`st.sidebar.success`, `st.markdown` and `st.json` in `app.py`. -/
inductive UIEvent where
  | errorMsg (s : String)
  | warningMsg (s : String)
  | successMsg (s : String)
  | sidebarSuccess (s : String)
  | markdownMsg (s : String)
  | jsonDisplay (d : ImmigrationData)
  deriving DecidableEq

/-- The constructed `genai.Client` (only its key matters to the model). -/
structure Client where
  api_key : String
  deriving DecidableEq

/-- The `st.error` text shown when `GEMINI_API_KEY` is missing or empty
(app.py lines 17-20). -/
def apiKeyMissingMsg : String :=
  "API Key not found. Please set the 'GEMINI_API_KEY' environment variable " ++
  "in your Streamlit, Kaggle, or Replit Secrets."

/-- `initialize_client` (app.py lines 11-29). `env` models `os.environ.get`;
`mkClient` models the fallible constructor `genai.Client(api_key=...)`.
Python truthiness: `if not api_key` fires on `None` and on `""`. The whole
body sits in `try/except`, so a constructor failure is surfaced as an
`st.error` message and `None` is returned. -/
def initialize_client (env : String → Option String)
    (mkClient : String → Except String Client) : Option Client × List UIEvent :=
  match env "GEMINI_API_KEY" with
  | none => (none, [UIEvent.errorMsg apiKeyMissingMsg])
  | some api_key =>
    if api_key = "" then (none, [UIEvent.errorMsg apiKeyMissingMsg])
    else
      match mkClient api_key with
      | Except.ok client => (some client, [UIEvent.sidebarSuccess "Gemini Client initialized."])
      | Except.error e =>
        (none, [UIEvent.errorMsg ("Error initializing Gemini Client: " ++ e)])

/-- The chat session created by `client.chats.create` (app.py lines 95-98):
it records the client and the names of the registered tools. -/
structure ChatSession where
  client : Client
  tools : List String
  deriving DecidableEq

/-- The tool list passed to `client.chats.create`:
`tools=[calculate_crs_score]` (app.py line 97). -/
def chatTools : List String :=
  ["calculate_crs_score"]

/-- The start of `main` (app.py lines 87-100): initialize the client, return
immediately when it is `None`, otherwise create the chat session with the
registered tools. Returns the session (if any) and the UI events so far. -/
def mainStartup (env : String → Option String)
    (mkClient : String → Except String Client) : Option ChatSession × List UIEvent :=
  match initialize_client env mkClient with
  | (none, evs) => (none, evs)
  | (some client, evs) => (some { client := client, tools := chatTools }, evs)

/-! ## Document analysis (app.py lines 129-171) -/

/-- The session-state fields driving the analysis block:
`st.session_state.uploaded_file_bytes` (file contents, `None` when absent)
and `st.session_state.extraction_done`. -/
structure DocState where
  uploaded_file_bytes : Option (List Nat)
  extraction_done : Bool
  deriving DecidableEq

/-- The `st.warning` text of the analysis failure path (app.py line 170). -/
def docAnalysisWarning : String :=
  "Please try uploading a different document or check the document format."

/-- The analysis block (app.py lines 129-171). `sendDoc` models the
`chat.send_message` round holding the document and extraction prompt: it
yields `response.text` or raises. `parse` models `json.loads` followed by
schema reading. Both calls sit inside the same `try`, whose `except`
shows the error and the warning and clears `uploaded_file_bytes`; note
that the `st.success` call precedes `json.loads` inside the `try`. -/
def docAnalysisStep (sendDoc : Except String String)
    (parse : String → Except String ImmigrationData)
    (s : DocState) : DocState × List UIEvent :=
  if s.uploaded_file_bytes.isSome && !s.extraction_done then
    match sendDoc with
    | Except.error e =>
      ({ s with uploaded_file_bytes := none },
       [UIEvent.errorMsg ("Error during document analysis: " ++ e),
        UIEvent.warningMsg docAnalysisWarning])
    | Except.ok txt =>
      match parse txt with
      | Except.error e =>
        ({ s with uploaded_file_bytes := none },
         [UIEvent.successMsg "✅ Structured Data Extracted Successfully!",
          UIEvent.errorMsg ("Error during document analysis: " ++ e),
          UIEvent.warningMsg docAnalysisWarning])
      | Except.ok extracted_data =>
        ({ s with extraction_done := true },
         [UIEvent.successMsg "✅ Structured Data Extracted Successfully!",
          UIEvent.markdownMsg "### 📊 Extracted Immigration Metadata (JSON)",
          UIEvent.jsonDisplay extracted_data])
  else (s, [])

/-! ## Chat round with tool dispatch (app.py lines 195-232) -/

/-- Arguments the model supplies for a `calculate_crs_score` call
(`func_call.args`, passed through via `**args`, app.py lines 211-216). -/
structure CRSArgs where
  education : String
  experience_years : Int
  language_score_clb : Int
  deriving DecidableEq

/-- A `func_call` entry of `response.function_calls`. -/
structure FuncCall where
  name : String
  args : CRSArgs
  deriving DecidableEq

/-- A model response: its `function_calls` list (empty list models a
falsy `response.function_calls`) and its `text`. -/
structure Response where
  function_calls : List FuncCall
  text : String
  deriving DecidableEq

/-- UI effects of the chat round: the `st.info` shown before the tool runs,
the execution of the local tool with its arguments and returned dict, and
an assistant chat message rendered with `st.markdown`. -/
inductive ChatEvent where
  | infoCalculating (args : CRSArgs)
  | toolExecuted (args : CRSArgs) (result : List (String × PyVal))
  | assistantText (t : String)
  deriving DecidableEq

/-- The `for func_call in response.function_calls` loop (app.py lines
208-227). For a call named `"calculate_crs_score"`: show the info line,
execute the local tool on the call's arguments, send the returned dict
back via `send_message` (`sendTool`), and display the follow-up text.
Other names are skipped. No `try` surrounds the loop, so a `sendTool`
failure propagates as `Except.error`. -/
def handleCalls (sendTool : String → List (String × PyVal) → Except String Response) :
    List FuncCall → Except String (List ChatEvent)
  | [] => Except.ok []
  | fc :: rest =>
    if fc.name = "calculate_crs_score" then
      match sendTool fc.name
          (calculate_crs_score fc.args.education fc.args.experience_years
            fc.args.language_score_clb) with
      | Except.error e => Except.error e
      | Except.ok tool_response =>
        match handleCalls sendTool rest with
        | Except.error e => Except.error e
        | Except.ok evs =>
          Except.ok
            (ChatEvent.infoCalculating fc.args ::
             ChatEvent.toolExecuted fc.args
               (calculate_crs_score fc.args.education fc.args.experience_years
                 fc.args.language_score_clb) ::
             ChatEvent.assistantText tool_response.text :: evs)
    else handleCalls sendTool rest

/-- One chat round (app.py lines 195-232): send the user prompt
(`send`, no surrounding `try`), then branch on
`if response.function_calls:` — when the list is non-empty run the tool
loop, otherwise display `response.text`. -/
def handlePrompt (send : String → Except String Response)
    (sendTool : String → List (String × PyVal) → Except String Response)
    (prompt : String) : Except String (List ChatEvent) :=
  match send prompt with
  | Except.error e => Except.error e
  | Except.ok response =>
    if response.function_calls.isEmpty then
      Except.ok [ChatEvent.assistantText response.text]
    else handleCalls sendTool response.function_calls

/-! ## Facts about the scoring tool -/

/-- Closed form of the accumulated score. -/
theorem crsScore_eq (e : String) (x l : Int) :
    crsScore e x l =
      educationPoints e + min x 5 * 15 + (if l ≥ 9 then l * 10 else l * 5) := by
  simp [crsScore]

/-- The education contribution is one of the three constants 135, 120, 30. -/
theorem educationPoints_cases (e : String) :
    educationPoints e = 135 ∨ educationPoints e = 120 ∨ educationPoints e = 30 := by
  unfold educationPoints
  split
  · exact Or.inl rfl
  · split
    · exact Or.inr (Or.inl rfl)
    · exact Or.inr (Or.inr rfl)

/-- C2: `calculate_crs_score` is deterministic and depends on nothing but
its three arguments: any two runs on equal arguments return equal results.
In the embedding it is a pure function of exactly
`(education, experience_years, language_score_clb)`, so it reads and
mutates no state. -/
theorem crs_deterministic (e₁ e₂ : String) (x₁ x₂ l₁ l₂ : Int)
    (he : e₁ = e₂) (hx : x₁ = x₂) (hl : l₁ = l₂) :
    calculate_crs_score e₁ x₁ l₁ = calculate_crs_score e₂ x₂ l₂ := by
  subst he; subst hx; subst hl; rfl

/-- Witness for C2 at a concrete argument triple. -/
theorem crs_deterministic_witness :
    calculate_crs_score "Master of Science" 2 9 = calculate_crs_score "Master of Science" 2 9 :=
  crs_deterministic "Master of Science" "Master of Science" 2 2 9 9 rfl rfl rfl

/-- C3: over the intended domain (any education string, non-negative
experience, CLB between 0 and 12) the calculated score lies in a fixed
band: at least the 30-point education floor and at most
135 + 75 + 120 = 330, and that score is the `"calculated_score"` value of
the returned dict. -/
theorem crs_score_band (e : String) (x l : Int)
    (hx : 0 ≤ x) (hl0 : 0 ≤ l) (hl12 : l ≤ 12) :
    30 ≤ crsScore e x l ∧ crsScore e x l ≤ 330 ∧
    (calculate_crs_score e x l).lookup "calculated_score" =
      some (PyVal.vInt (crsScore e x l)) := by
  have hedu := educationPoints_cases e
  have hmin0 : 0 ≤ min x 5 := le_min hx (by norm_num)
  have hmin5 : min x 5 ≤ 5 := min_le_right x 5
  refine ⟨?_, ?_, rfl⟩ <;>
    rw [crsScore_eq] <;>
    by_cases h : l ≥ 9 <;>
    simp only [h, if_true, if_false] <;>
    rcases hedu with h1 | h1 | h1 <;>
    rw [h1] <;>
    omega

/-- Witness for C3 at a concrete argument triple. -/
theorem crs_score_band_witness :
    30 ≤ crsScore "Master of Science" 3 9 ∧ crsScore "Master of Science" 3 9 ≤ 330 ∧
    (calculate_crs_score "Master of Science" 3 9).lookup "calculated_score" =
      some (PyVal.vInt (crsScore "Master of Science" 3 9)) :=
  crs_score_band "Master of Science" 3 9 (by decide) (by decide) (by decide)

/-- C8: the education branches are tested in order: any string containing
`"Master"` or `"PhD"` earns 135 points even if it also contains
`"Bachelor"`; 120 points exactly when `"Bachelor"` occurs but neither
`"Master"` nor `"PhD"` does; everything else earns 30 points. -/
theorem education_branch_order (education : String) :
    (strContains education "Master" = true ∨ strContains education "PhD" = true →
      educationPoints education = 135) ∧
    (strContains education "Master" = false → strContains education "PhD" = false →
      strContains education "Bachelor" = true → educationPoints education = 120) ∧
    (strContains education "Master" = false → strContains education "PhD" = false →
      strContains education "Bachelor" = false → educationPoints education = 30) := by
  unfold educationPoints
  refine ⟨?_, ?_, ?_⟩
  · rintro (h | h) <;> simp [h]
  · intro h1 h2 h3; simp [h1, h2, h3]
  · intro h1 h2 h3; simp [h1, h2, h3]

/-- Witness for C8: one education string per branch, including a string
holding both `"Bachelor"` and `"Master"`. -/
theorem education_branch_order_witness :
    educationPoints "Bachelor then Master" = 135 ∧
    educationPoints "Bachelor of Arts" = 120 ∧
    educationPoints "College Diploma" = 30 :=
  ⟨(education_branch_order "Bachelor then Master").1 (Or.inl (by decide)),
   (education_branch_order "Bachelor of Arts").2.1 (by decide) (by decide) (by decide),
   (education_branch_order "College Diploma").2.2 (by decide) (by decide) (by decide)⟩

/-- C9: for fixed education and CLB the score is monotone non-decreasing
in `experience_years`, the experience contribution is capped at 5 years
(every `x ≥ 5` scores the same as 5), and 5 years add exactly 75 points
over zero experience. -/
theorem experience_monotone_capped (e : String) (l : Int) :
    (∀ x y : Int, x ≤ y → crsScore e x l ≤ crsScore e y l) ∧
    (∀ x : Int, 5 ≤ x → crsScore e x l = crsScore e 5 l) ∧
    crsScore e 5 l = crsScore e 0 l + 75 := by
  refine ⟨?_, ?_, ?_⟩
  · intro x y hxy
    rw [crsScore_eq, crsScore_eq]
    have h15 : min x 5 * 15 ≤ min y 5 * 15 :=
      mul_le_mul_of_nonneg_right (min_le_min hxy le_rfl) (by norm_num)
    linarith
  · intro x hx
    rw [crsScore_eq, crsScore_eq, min_eq_right hx, min_self]
  · rw [crsScore_eq, crsScore_eq, min_self,
      min_eq_left (by norm_num : (0 : Int) ≤ 5)]
    ring

/-- Witness for C9 at concrete experience values. -/
theorem experience_monotone_capped_witness :
    crsScore "Master of Science" 2 7 ≤ crsScore "Master of Science" 6 7 ∧
    crsScore "Master of Science" 9 7 = crsScore "Master of Science" 5 7 ∧
    crsScore "Master of Science" 5 7 = crsScore "Master of Science" 0 7 + 75 :=
  ⟨(experience_monotone_capped "Master of Science" 7).1 2 6 (by decide),
   (experience_monotone_capped "Master of Science" 7).2.1 9 (by decide),
   (experience_monotone_capped "Master of Science" 7).2.2⟩

/-- C10: for every input the returned dict has exactly the two keys
`"calculated_score"` (holding an integer) and `"note"` (holding the fixed
disclaimer string, independent of the arguments). -/
theorem crs_result_shape (e : String) (x l : Int) :
    (calculate_crs_score e x l).map Prod.fst = ["calculated_score", "note"] ∧
    (calculate_crs_score e x l).lookup "calculated_score" =
      some (PyVal.vInt (crsScore e x l)) ∧
    (calculate_crs_score e x l).lookup "note" =
      some (PyVal.vStr "CRS score is a simplified estimate for project demonstration only.") :=
  ⟨rfl, rfl, rfl⟩

/-! ## Facts about the chat round -/

/-- In a successful tool loop, some tool execution happened exactly when
some call in the list is named `"calculate_crs_score"`. -/
theorem handleCalls_tool_iff
    (sendTool : String → List (String × PyVal) → Except String Response)
    (calls : List FuncCall) (evs : List ChatEvent)
    (h : handleCalls sendTool calls = Except.ok evs) :
    (∃ a o, ChatEvent.toolExecuted a o ∈ evs) ↔
      ∃ fc, fc ∈ calls ∧ fc.name = "calculate_crs_score" := by
  induction calls generalizing evs with
  | nil =>
    simp only [handleCalls, Except.ok.injEq] at h
    subst h
    simp
  | cons fc rest ih =>
    simp only [handleCalls] at h
    by_cases hname : fc.name = "calculate_crs_score"
    · rw [if_pos hname] at h
      cases hs : sendTool fc.name
          (calculate_crs_score fc.args.education fc.args.experience_years
            fc.args.language_score_clb) with
      | error e => rw [hs] at h; cases h
      | ok tool_response =>
        rw [hs] at h
        cases hr : handleCalls sendTool rest with
        | error e => rw [hr] at h; cases h
        | ok evs0 =>
          rw [hr] at h
          cases h
          constructor
          · rintro ⟨a, o, hmem⟩
            rcases List.mem_cons.mp hmem with h1 | hmem
            · cases h1
            rcases List.mem_cons.mp hmem with h1 | hmem
            · exact ⟨fc, List.mem_cons_self fc rest, hname⟩
            rcases List.mem_cons.mp hmem with h1 | hmem
            · cases h1
            · obtain ⟨fc₂, hfc₂, hn₂⟩ := (ih evs0 hr).mp ⟨a, o, hmem⟩
              exact ⟨fc₂, List.mem_cons_of_mem fc hfc₂, hn₂⟩
          · rintro -
            refine ⟨fc.args, calculate_crs_score fc.args.education fc.args.experience_years
              fc.args.language_score_clb, ?_⟩
            exact List.mem_cons_of_mem _ (List.mem_cons_self _ _)
    · rw [if_neg hname] at h
      rw [ih evs h]
      constructor
      · rintro ⟨fc₂, hfc₂, hn₂⟩
        exact ⟨fc₂, List.mem_cons_of_mem fc hfc₂, hn₂⟩
      · rintro ⟨fc₂, hfc₂, hn₂⟩
        rcases List.mem_cons.mp hfc₂ with rfl | hm
        · exact absurd hn₂ hname
        · exact ⟨fc₂, hm, hn₂⟩

/-- In a successful tool loop, every recorded tool execution came from a
call named `"calculate_crs_score"`, ran on that call's own arguments, and
returned the dict computed by `calculate_crs_score` on them. -/
theorem handleCalls_tool_sound
    (sendTool : String → List (String × PyVal) → Except String Response)
    (calls : List FuncCall) (evs : List ChatEvent)
    (h : handleCalls sendTool calls = Except.ok evs) :
    ∀ a o, ChatEvent.toolExecuted a o ∈ evs →
      ∃ fc, fc ∈ calls ∧ fc.name = "calculate_crs_score" ∧ fc.args = a ∧
        o = calculate_crs_score a.education a.experience_years a.language_score_clb := by
  induction calls generalizing evs with
  | nil =>
    simp only [handleCalls, Except.ok.injEq] at h
    subst h
    intro a o hmem
    cases hmem
  | cons fc rest ih =>
    simp only [handleCalls] at h
    by_cases hname : fc.name = "calculate_crs_score"
    · rw [if_pos hname] at h
      cases hs : sendTool fc.name
          (calculate_crs_score fc.args.education fc.args.experience_years
            fc.args.language_score_clb) with
      | error e => rw [hs] at h; cases h
      | ok tool_response =>
        rw [hs] at h
        cases hr : handleCalls sendTool rest with
        | error e => rw [hr] at h; cases h
        | ok evs0 =>
          rw [hr] at h
          cases h
          intro a o hmem
          rcases List.mem_cons.mp hmem with h1 | hmem
          · cases h1
          rcases List.mem_cons.mp hmem with h1 | hmem
          · cases h1
            exact ⟨fc, List.mem_cons_self fc rest, hname, rfl, rfl⟩
          rcases List.mem_cons.mp hmem with h1 | hmem
          · cases h1
          · obtain ⟨fc₂, hfc₂, hn₂, ha₂, ho₂⟩ := ih evs0 hr a o hmem
            exact ⟨fc₂, List.mem_cons_of_mem fc hfc₂, hn₂, ha₂, ho₂⟩
    · rw [if_neg hname] at h
      intro a o hmem
      obtain ⟨fc₂, hfc₂, hn₂, ha₂, ho₂⟩ := ih evs h a o hmem
      exact ⟨fc₂, List.mem_cons_of_mem fc hfc₂, hn₂, ha₂, ho₂⟩

/-- In a successful tool loop, every call named `"calculate_crs_score"`
was executed: the tool's dict was sent back via `sendTool`, which
succeeded, and the follow-up text was displayed. -/
theorem handleCalls_tool_complete
    (sendTool : String → List (String × PyVal) → Except String Response)
    (calls : List FuncCall) (evs : List ChatEvent)
    (h : handleCalls sendTool calls = Except.ok evs) :
    ∀ fc, fc ∈ calls → fc.name = "calculate_crs_score" →
      ∃ tool_response,
        sendTool fc.name (calculate_crs_score fc.args.education fc.args.experience_years
          fc.args.language_score_clb) = Except.ok tool_response ∧
        ChatEvent.toolExecuted fc.args (calculate_crs_score fc.args.education
          fc.args.experience_years fc.args.language_score_clb) ∈ evs ∧
        ChatEvent.assistantText tool_response.text ∈ evs := by
  induction calls generalizing evs with
  | nil =>
    intro fc hfc
    cases hfc
  | cons fc₀ rest ih =>
    simp only [handleCalls] at h
    by_cases hname : fc₀.name = "calculate_crs_score"
    · rw [if_pos hname] at h
      cases hs : sendTool fc₀.name
          (calculate_crs_score fc₀.args.education fc₀.args.experience_years
            fc₀.args.language_score_clb) with
      | error e => rw [hs] at h; cases h
      | ok tool_response =>
        rw [hs] at h
        cases hr : handleCalls sendTool rest with
        | error e => rw [hr] at h; cases h
        | ok evs0 =>
          rw [hr] at h
          cases h
          intro fc hfc hn
          rcases List.mem_cons.mp hfc with rfl | hm
          · refine ⟨tool_response, hs, ?_, ?_⟩
            · exact List.mem_cons_of_mem _ (List.mem_cons_self _ _)
            · exact List.mem_cons_of_mem _ (List.mem_cons_of_mem _
                (List.mem_cons_self _ _))
          · obtain ⟨tr₂, hs₂, hm₂, ht₂⟩ := ih evs0 hr fc hm hn
            refine ⟨tr₂, hs₂, ?_, ?_⟩
            · exact List.mem_cons_of_mem _ (List.mem_cons_of_mem _
                (List.mem_cons_of_mem _ hm₂))
            · exact List.mem_cons_of_mem _ (List.mem_cons_of_mem _
                (List.mem_cons_of_mem _ ht₂))
    · rw [if_neg hname] at h
      intro fc hfc hn
      rcases List.mem_cons.mp hfc with rfl | hm
      · exact absurd hn hname
      · exact ih evs h fc hm hn

/-- C1: after a chat prompt the round branches on the response: the local
tool `calculate_crs_score` runs exactly when the response carries a
function call of that name; each execution uses the call's own arguments
unchanged, the returned dict is sent back as a function response and the
model's follow-up text is displayed; a plain-text response (no function
calls) only displays `response.text` and runs no local tool. -/
theorem chat_tool_dispatch
    (send : String → Except String Response)
    (sendTool : String → List (String × PyVal) → Except String Response)
    (prompt : String) (r : Response) (evs : List ChatEvent)
    (hsend : send prompt = Except.ok r)
    (hrun : handlePrompt send sendTool prompt = Except.ok evs) :
    ((∃ a o, ChatEvent.toolExecuted a o ∈ evs) ↔
      ∃ fc, fc ∈ r.function_calls ∧ fc.name = "calculate_crs_score") ∧
    (∀ a o, ChatEvent.toolExecuted a o ∈ evs →
      ∃ fc, fc ∈ r.function_calls ∧ fc.name = "calculate_crs_score" ∧ fc.args = a ∧
        o = calculate_crs_score a.education a.experience_years a.language_score_clb) ∧
    (∀ fc, fc ∈ r.function_calls → fc.name = "calculate_crs_score" →
      ∃ tool_response,
        sendTool fc.name (calculate_crs_score fc.args.education fc.args.experience_years
          fc.args.language_score_clb) = Except.ok tool_response ∧
        ChatEvent.toolExecuted fc.args (calculate_crs_score fc.args.education
          fc.args.experience_years fc.args.language_score_clb) ∈ evs ∧
        ChatEvent.assistantText tool_response.text ∈ evs) ∧
    (r.function_calls = [] → evs = [ChatEvent.assistantText r.text]) := by
  have hrun2 : (if r.function_calls.isEmpty then Except.ok [ChatEvent.assistantText r.text]
      else handleCalls sendTool r.function_calls) = Except.ok evs := by
    rw [← hrun]
    unfold handlePrompt
    rw [hsend]
  by_cases hempty : r.function_calls.isEmpty
  · have hnil : r.function_calls = [] := by
      cases hfc : r.function_calls with
      | nil => rfl
      | cons a as => rw [hfc] at hempty; cases hempty
    rw [if_pos hempty, Except.ok.injEq] at hrun2
    subst hrun2
    refine ⟨?_, ?_, ?_, fun _ => rfl⟩
    · constructor
      · rintro ⟨a, o, hmem⟩
        rcases List.mem_cons.mp hmem with h1 | h1
        · cases h1
        · cases h1
      · rintro ⟨fc, hfc, -⟩
        rw [hnil] at hfc
        cases hfc
    · intro a o hmem
      rcases List.mem_cons.mp hmem with h1 | h1
      · cases h1
      · cases h1
    · intro fc hfc
      rw [hnil] at hfc
      cases hfc
  · rw [if_neg hempty] at hrun2
    refine ⟨handleCalls_tool_iff sendTool r.function_calls evs hrun2,
      handleCalls_tool_sound sendTool r.function_calls evs hrun2,
      handleCalls_tool_complete sendTool r.function_calls evs hrun2,
      fun hn => absurd (by rw [hn]; rfl) hempty⟩

/-- Witness for C1: a concrete round whose response carries one
`calculate_crs_score` call; the tool execution event appears in the
resulting event list. -/
theorem chat_tool_dispatch_witness :
    ChatEvent.toolExecuted (CRSArgs.mk "Master of Science" 3 9)
        (calculate_crs_score "Master of Science" 3 9) ∈
      ([ChatEvent.infoCalculating (CRSArgs.mk "Master of Science" 3 9),
        ChatEvent.toolExecuted (CRSArgs.mk "Master of Science" 3 9)
          (calculate_crs_score "Master of Science" 3 9),
        ChatEvent.assistantText "Your estimated score is 270."] : List ChatEvent) := by
  have h := chat_tool_dispatch
    (fun _ => Except.ok (Response.mk
      [FuncCall.mk "calculate_crs_score" (CRSArgs.mk "Master of Science" 3 9)] ""))
    (fun _ _ => Except.ok (Response.mk [] "Your estimated score is 270."))
    "What is my estimated CRS score?"
    (Response.mk [FuncCall.mk "calculate_crs_score" (CRSArgs.mk "Master of Science" 3 9)] "")
    [ChatEvent.infoCalculating (CRSArgs.mk "Master of Science" 3 9),
     ChatEvent.toolExecuted (CRSArgs.mk "Master of Science" 3 9)
       (calculate_crs_score "Master of Science" 3 9),
     ChatEvent.assistantText "Your estimated score is 270."]
    rfl rfl
  obtain ⟨-, -, hcomp, -⟩ := h
  obtain ⟨tool_response, -, hmem, -⟩ := hcomp
    (FuncCall.mk "calculate_crs_score" (CRSArgs.mk "Master of Science" 3 9))
    (List.mem_cons_self _ _) rfl
  exact hmem

/-! ## Error handling boundaries -/

/-- C4 counterexample: an exception raised by the plain chat
`send_message` round (app.py line 203, outside every `try`) is not caught
and not surfaced as a user-facing message: the embedded round propagates
the error instead of producing an event list. -/
theorem chat_send_error_uncaught :
    handlePrompt (fun _ => Except.error "network failure")
      (fun _ _ => Except.error "network failure")
      "What is my estimated CRS score?" = Except.error "network failure" := rfl

/-- C4 amended: errors are caught at the call boundary and surfaced as a
message for client initialization and for the document-analysis request,
but the chat `send_message` rounds (the plain prompt round and the
tool-response round) have no surrounding handler: their errors
propagate uncaught. -/
theorem error_handling_boundaries :
    (∀ (env : String → Option String) (k e : String),
      env "GEMINI_API_KEY" = some k → ¬k = "" →
      initialize_client env (fun _ => Except.error e) =
        (none, [UIEvent.errorMsg ("Error initializing Gemini Client: " ++ e)])) ∧
    (∀ (parse : String → Except String ImmigrationData) (s : DocState) (e : String),
      s.uploaded_file_bytes.isSome = true → s.extraction_done = false →
      UIEvent.errorMsg ("Error during document analysis: " ++ e) ∈
        (docAnalysisStep (Except.error e) parse s).2) ∧
    (∀ (sendTool : String → List (String × PyVal) → Except String Response)
      (prompt e : String),
      handlePrompt (fun _ => Except.error e) sendTool prompt = Except.error e) ∧
    (∀ (prompt e t : String) (fc : FuncCall), fc.name = "calculate_crs_score" →
      handlePrompt (fun _ => Except.ok (Response.mk [fc] t))
        (fun _ _ => Except.error e) prompt = Except.error e) := by
  refine ⟨?_, ?_, ?_, ?_⟩
  · intro env k e hk hne
    unfold initialize_client
    rw [hk]
    simp [hne]
  · intro parse s e hb hd
    simp [docAnalysisStep, hb, hd]
  · intro sendTool prompt e
    rfl
  · intro prompt e t fc hn
    simp [handlePrompt, handleCalls, hn]

/-- Witness for C4 amended: all four boundaries at concrete inputs. -/
theorem error_handling_boundaries_witness :
    initialize_client (fun _ => some "key123") (fun _ => Except.error "boom") =
      (none, [UIEvent.errorMsg ("Error initializing Gemini Client: " ++ "boom")]) ∧
    UIEvent.errorMsg ("Error during document analysis: " ++ "boom") ∈
      (docAnalysisStep (Except.error "boom")
        (fun _ => Except.error "bad json") (DocState.mk (some [1, 2]) false)).2 ∧
    handlePrompt (fun _ => Except.error "boom")
      (fun _ _ => Except.ok (Response.mk [] "")) "hi" = Except.error "boom" ∧
    handlePrompt
      (fun _ => Except.ok (Response.mk
        [FuncCall.mk "calculate_crs_score" (CRSArgs.mk "Master" 1 1)] ""))
      (fun _ _ => Except.error "boom") "hi" = Except.error "boom" :=
  ⟨error_handling_boundaries.1 (fun _ => some "key123") "key123" "boom" rfl (by decide),
   error_handling_boundaries.2.1 (fun _ => Except.error "bad json")
     (DocState.mk (some [1, 2]) false) "boom" rfl rfl,
   error_handling_boundaries.2.2.1 (fun _ _ => Except.ok (Response.mk [] "")) "hi" "boom",
   error_handling_boundaries.2.2.2 "hi" "boom" ""
     (FuncCall.mk "calculate_crs_score" (CRSArgs.mk "Master" 1 1)) rfl⟩

/-! ## Tool registration and startup -/

/-- C5 counterexample: the tools list passed to `client.chats.create`
is `[calculate_crs_score]` — length one, not two or three; no
document-analysis function is registered as a tool. -/
theorem tools_list_not_two_or_three :
    chatTools.length = 1 ∧ ¬(chatTools.length = 2 ∨ chatTools.length = 3) := by
  decide

/-- C5 amended: exactly one local function is registered as a callable
tool when the chat session is created, the point-scoring calculator
`calculate_crs_score`; every created session carries exactly this
one-element tool list (document analysis is done by a direct structured
request, not a registered tool). -/
theorem tools_list_single (env : String → Option String)
    (mkClient : String → Except String Client) (c : ChatSession) (evs : List UIEvent)
    (h : mainStartup env mkClient = (some c, evs)) :
    c.tools = ["calculate_crs_score"] ∧ c.tools.length = 1 := by
  unfold mainStartup at h
  cases hinit : initialize_client env mkClient with
  | mk oc evs0 =>
    rw [hinit] at h
    cases oc with
    | none => cases h
    | some client =>
      injection h with h1 h2
      injection h1 with h1
      subst h1
      exact ⟨rfl, rfl⟩

/-- Witness for C5 amended: a successful startup yields a session whose
tool list is the singleton `["calculate_crs_score"]`. -/
theorem tools_list_single_witness :
    (ChatSession.mk (Client.mk "key123") chatTools).tools = ["calculate_crs_score"] ∧
    (ChatSession.mk (Client.mk "key123") chatTools).tools.length = 1 :=
  tools_list_single (fun _ => some "key123") (fun k => Except.ok (Client.mk k))
    (ChatSession.mk (Client.mk "key123") chatTools)
    [UIEvent.sidebarSuccess "Gemini Client initialized."] rfl

/-- C6: the credential is read from the environment variable
`GEMINI_API_KEY`; when it is unset or empty, `initialize_client` surfaces
the error message and returns `None`, and `main` returns immediately: no
chat session exists, so no request can be sent, and the client
constructor is never consulted (startup is the same for every
constructor). -/
theorem missing_api_key_stops (env : String → Option String)
    (mkClient : String → Except String Client)
    (h : env "GEMINI_API_KEY" = none ∨ env "GEMINI_API_KEY" = some "") :
    initialize_client env mkClient = (none, [UIEvent.errorMsg apiKeyMissingMsg]) ∧
    mainStartup env mkClient = (none, [UIEvent.errorMsg apiKeyMissingMsg]) ∧
    ∀ mk₂ : String → Except String Client,
      mainStartup env mkClient = mainStartup env mk₂ := by
  have hinit : ∀ mk₂ : String → Except String Client,
      initialize_client env mk₂ = (none, [UIEvent.errorMsg apiKeyMissingMsg]) := by
    intro mk₂
    unfold initialize_client
    rcases h with h | h <;> simp [h]
  refine ⟨hinit mkClient, ?_, ?_⟩
  · unfold mainStartup
    rw [hinit mkClient]
  · intro mk₂
    unfold mainStartup
    rw [hinit mkClient, hinit mk₂]

/-- Witness for C6 with an unset `GEMINI_API_KEY`. -/
theorem missing_api_key_stops_witness :
    initialize_client (fun _ => none) (fun k => Except.ok (Client.mk k)) =
      (none, [UIEvent.errorMsg apiKeyMissingMsg]) :=
  (missing_api_key_stops (fun _ => none) (fun k => Except.ok (Client.mk k))
    (Or.inl rfl)).1

/-- C7: when the document-analysis request raises, the handler stops with
the error text and the warning, `extraction_done` stays `False`, no
extracted JSON is displayed, and `uploaded_file_bytes` is cleared so the
analysis is not re-attempted on the next rerun. -/
theorem doc_analysis_failure (parse : String → Except String ImmigrationData)
    (s : DocState) (e : String)
    (hb : s.uploaded_file_bytes.isSome = true) (hd : s.extraction_done = false) :
    docAnalysisStep (Except.error e) parse s =
      (DocState.mk none false,
       [UIEvent.errorMsg ("Error during document analysis: " ++ e),
        UIEvent.warningMsg docAnalysisWarning]) ∧
    ∀ d : ImmigrationData,
      UIEvent.jsonDisplay d ∉ (docAnalysisStep (Except.error e) parse s).2 := by
  cases s with
  | mk bytes done =>
    simp only at hb hd
    subst hd
    constructor
    · simp [docAnalysisStep, hb]
    · intro d
      simp [docAnalysisStep, hb]

/-- Witness for C7 at a concrete failing analysis. -/
theorem doc_analysis_failure_witness :
    docAnalysisStep (Except.error "boom")
        (fun _ => Except.ok (ImmigrationData.mk "" "" "" "" ""))
        (DocState.mk (some [0]) false) =
      (DocState.mk none false,
       [UIEvent.errorMsg ("Error during document analysis: " ++ "boom"),
        UIEvent.warningMsg docAnalysisWarning]) :=
  (doc_analysis_failure (fun _ => Except.ok (ImmigrationData.mk "" "" "" "" ""))
    (DocState.mk (some [0]) false) "boom" rfl rfl).1
